import Mathlib

/-!
Verification development for the artifact-registry backend: a shallow
embedding of the storage and relationship-resolution engine
(`backend/storage/memory.py`), the rating/cost aggregation
(`backend/services/rating_service.py`), and the route-level contracts that
drive them (`backend/api/routes/artifacts.py`).

Machine reals (Python floats) are embedded as exact rationals; Python's
`round(x, n)` (round-half-to-even on the scaled value) is embedded
explicitly.  Python dictionaries are embedded as insertion-ordered
association lists with first-key-wins lookup, in-place overwrite, and
order-preserving iteration, which matches `dict` semantics for the
duplicate-free key sets the store maintains.  Network collaborators
(HuggingFace / GitHub fetches, the metric runner, the size-score
calculator) are oracle inputs passed as explicit parameters.
-/

/-- Kinds of registered artifacts (`ArtifactType` in `backend/models`, as
used throughout the storage modules: MODEL, DATASET, CODE). -/
inductive ArtifactType where
  | MODEL
  | DATASET
  | CODE
deriving DecidableEq

/-- Modelled from the spec: metadata of a record — display name, opaque
string id, and kind (`backend/models.ArtifactMetadata` is not among the
provided sources; the field set is the one every storage module reads:
`metadata.name`, `metadata.id`, `metadata.type`). -/
structure ArtifactMetadata where
  name : String
  id : String
  type : ArtifactType
deriving DecidableEq

/-- Modelled from the spec: the data part of a record — canonical source
URL plus optional resolved download location (`backend/models.ArtifactData`;
the storage modules read `data.url` and `data.download_url`). -/
structure ArtifactData where
  url : String
  download_url : Option String
deriving DecidableEq

/-- An artifact record: metadata plus data (`backend/models.Artifact`). -/
structure Artifact where
  metadata : ArtifactMetadata
  data : ArtifactData
deriving DecidableEq

/-- Modelled from the spec: the 4-way deployment-target size breakdown
(`SizeScore`); the cost route reads the `raspberry_pi` component. -/
structure SizeScore where
  raspberry_pi : ℚ
  jetson_nano : ℚ
  desktop_pc : ℚ
  aws_server : ℚ
deriving DecidableEq

/-- A model's quality rating.  The field set is exactly the one the
`ModelRating(...)` construction in
`backend/services/rating_service.py::compute_model_artifact` populates:
eleven sub-scores with a latency companion each, the derived net score,
and the size breakdown. -/
structure ModelRating where
  name : String
  category : String
  net_score : ℚ
  net_score_latency : ℚ
  ramp_up_time : ℚ
  ramp_up_time_latency : ℚ
  bus_factor : ℚ
  bus_factor_latency : ℚ
  performance_claims : ℚ
  performance_claims_latency : ℚ
  license : ℚ
  license_latency : ℚ
  dataset_and_code_score : ℚ
  dataset_and_code_score_latency : ℚ
  dataset_quality : ℚ
  dataset_quality_latency : ℚ
  code_quality : ℚ
  code_quality_latency : ℚ
  reproducibility : ℚ
  reproducibility_latency : ℚ
  reviewedness : ℚ
  reviewedness_latency : ℚ
  tree_score : ℚ
  tree_score_latency : ℚ
  size_score : SizeScore
  size_score_latency : ℚ
deriving DecidableEq

/-- Modelled from the spec: a stored MODEL record
(`backend/storage/records.ModelRecord` is not among the provided sources).
Field set and `none` defaults are the ones the storage modules use: the
wrapped artifact, the optional rating, the `*Name`/`*URL` hints and the
resolved `*ID` links, all absent unless supplied (`§3 ModelExtension`). -/
structure ModelRecord where
  artifact : Artifact
  rating : Option ModelRating
  dataset_id : Option String
  dataset_name : Option String
  dataset_url : Option String
  code_id : Option String
  code_name : Option String
  code_url : Option String
deriving DecidableEq

/-- A stored DATASET record: just the wrapped artifact
(`backend/storage/records.DatasetRecord`, constructed as
`DatasetRecord(artifact=artifact)` in the storage modules). -/
structure DatasetRecord where
  artifact : Artifact
deriving DecidableEq

/-- A stored CODE record: just the wrapped artifact
(`backend/storage/records.CodeRecord`). -/
structure CodeRecord where
  artifact : Artifact
deriving DecidableEq

/-- The in-memory store: the three module-level dictionaries `_MODELS`,
`_DATASETS`, `_CODES` of `backend/storage/memory.py`, embedded as
insertion-ordered association lists. -/
structure Store where
  models : List (String × ModelRecord)
  datasets : List (String × DatasetRecord)
  codes : List (String × CodeRecord)
deriving DecidableEq

/-- The empty store (all three collections empty). -/
def emptyStore : Store := ⟨[], [], []⟩

/-! ### Python `dict` primitives on association lists -/

/-- Python `d[k] = v`: overwrite in place if the key is present (keeping
its position), otherwise append at the end (insertion order). -/
def dictInsert (k : String) (v : α) : List (String × α) → List (String × α)
  | [] => [(k, v)]
  | p :: rest => if p.1 = k then (k, v) :: rest else p :: dictInsert k v rest

/-- Python `d.get(k)`: first entry with the key, if any. -/
def dictGet (k : String) : List (String × α) → Option α
  | [] => none
  | p :: rest => if p.1 = k then some p.2 else dictGet k rest

/-- Python `del d[k]`: drop every entry with the key. -/
def dictErase (k : String) (l : List (String × α)) : List (String × α) :=
  l.filter (fun p => p.1 ≠ k)

/-- Python `k in d`. -/
def containsKey (l : List (String × α)) (k : String) : Bool :=
  l.any (fun p => p.1 = k)

/-! ### Python value helpers -/

/-- Python truthiness of an optional string: `None` and `""` are falsy. -/
def pyTruthy : Option String → Bool
  | none => false
  | some s => if s = "" then false else true

/-- Python `new or old` on optional strings (`None` and `""` are falsy). -/
def pyOrStr (new old : Option String) : Option String :=
  match new with
  | none => old
  | some s => if s = "" then old else some s

/-- Python `new or old` on optional ratings (a rating object is always
truthy; only `None` falls back). -/
def pyOrRating (new old : Option ModelRating) : Option ModelRating :=
  match new with
  | none => old
  | some r => some r

/-- Whitespace characters stripped by Python's `str.strip()` (the ASCII
ones; the registry's names are ASCII). -/
def pyWhitespace (c : Char) : Bool :=
  c = ' ' ∨ c = '\t' ∨ c = '\n' ∨ c = '\r' ∨ c = '\x0B' ∨ c = '\x0C'

/-- Python `str.strip()` on the character list: drop leading and trailing
whitespace. -/
def trimChars (l : List Char) : List Char :=
  ((l.dropWhile pyWhitespace).reverse.dropWhile pyWhitespace).reverse

/-- Python `str.lower()` on one ASCII character. -/
def lowerChar (c : Char) : Char :=
  if 'A' ≤ c ∧ c ≤ 'Z' then Char.ofNat (c.toNat + 32) else c

/-- Python `s.lower()`. -/
def pyLower (s : String) : String := String.mk (s.data.map lowerChar)

/-- Python `name.strip().lower()` on a string
(`_normalized` of `backend/storage/memory.py` for the `str` case). -/
def normalizedName (s : String) : String :=
  String.mk ((trimChars s.data).map lowerChar)

/-- `_normalized(name)` of `backend/storage/memory.py`: normalize when the
value is a string, propagate `None` otherwise. -/
def pnorm : Option String → Option String := Option.map normalizedName

/-! ### `backend/storage/memory.py` -/

/-- First stage of `_link_dataset_code`: given a MODEL record with a
truthy `dataset_name` hint and no resolved `dataset_id`, scan `_DATASETS`
in iteration order and adopt the id and url of the first record whose
normalized name equals the normalized hint. -/
def link_dataset (s : Store) (m : ModelRecord) : ModelRecord :=
  let dn := pnorm m.dataset_name
  if m.dataset_id = none ∧ pyTruthy dn then
    match s.datasets.find? (fun p => pnorm (some p.2.artifact.metadata.name) = dn) with
    | some q => { m with dataset_id := some q.1, dataset_url := some q.2.artifact.data.url }
    | none => m
  else m

/-- Second stage of `_link_dataset_code`: the symmetric scan of `_CODES`
for the `code_name` hint. -/
def link_code (s : Store) (m : ModelRecord) : ModelRecord :=
  let cn := pnorm m.code_name
  if m.code_id = none ∧ pyTruthy cn then
    match s.codes.find? (fun p => pnorm (some p.2.artifact.metadata.name) = cn) with
    | some q => { m with code_id := some q.1, code_url := some q.2.artifact.data.url }
    | none => m
  else m

/-- `_link_dataset_code` of `backend/storage/memory.py`: dataset pass then
code pass on the same record. -/
def link_dataset_code (s : Store) (m : ModelRecord) : ModelRecord :=
  link_code s (link_dataset s m)

/-- Repair pass run by `save_artifact` when a DATASET is saved: every
MODEL record with no resolved `dataset_id` whose normalized hint equals
the saved dataset's normalized name adopts the saved dataset's id and
url. -/
def repairDataset (dsId dsUrl : String) (dn : Option String) (m : ModelRecord) : ModelRecord :=
  if m.dataset_id = none ∧ pnorm m.dataset_name = dn then
    { m with dataset_id := some dsId, dataset_url := some dsUrl }
  else m

/-- Repair pass run by `save_artifact` when a CODE record is saved
(symmetric to `repairDataset`). -/
def repairCode (cId cUrl : String) (cn : Option String) (m : ModelRecord) : ModelRecord :=
  if m.code_id = none ∧ pnorm m.code_name = cn then
    { m with code_id := some cId, code_url := some cUrl }
  else m

/-- In-place field update performed by the MODEL branch of
`save_artifact` when the id already exists: replace the artifact and
apply Python-`or` fallbacks to the keyword arguments (a `None`/falsy
argument keeps the stored value); `dataset_id`/`code_id` are not
touched. -/
def updateModelRecord (r : ModelRecord) (a : Artifact) (rating : Option ModelRating)
    (dataset_name dataset_url code_name code_url : Option String) : ModelRecord :=
  { r with
    artifact := a,
    rating := pyOrRating rating r.rating,
    dataset_name := pyOrStr dataset_name r.dataset_name,
    dataset_url := pyOrStr dataset_url r.dataset_url,
    code_name := pyOrStr code_name r.code_name,
    code_url := pyOrStr code_url r.code_url }

/-- Fresh record built by the MODEL branch of `save_artifact` when the
id is new: the keyword arguments verbatim, resolved ids absent. -/
def newModelRecord (a : Artifact) (rating : Option ModelRating)
    (dataset_name dataset_url code_name code_url : Option String) : ModelRecord :=
  { artifact := a, rating := rating, dataset_id := none,
    dataset_name := dataset_name, dataset_url := dataset_url,
    code_id := none, code_name := code_name, code_url := code_url }

/-- `save_artifact` of `backend/storage/memory.py`.  MODEL: update the
existing record in place with Python-`or` fallbacks (or create a fresh
record), then run `_link_dataset_code` on it.  DATASET / CODE: overwrite
the record, then run the reverse repair pass over all MODEL records. -/
def save_artifact (s : Store) (a : Artifact) (rating : Option ModelRating)
    (dataset_name dataset_url code_name code_url : Option String) : Store :=
  match a.metadata.type with
  | ArtifactType.MODEL =>
    match dictGet a.metadata.id s.models with
    | some r =>
      { s with
        models := dictInsert a.metadata.id
          (link_dataset_code s
            (updateModelRecord r a rating dataset_name dataset_url code_name code_url))
          s.models }
    | none =>
      { s with
        models := dictInsert a.metadata.id
          (link_dataset_code s
            (newModelRecord a rating dataset_name dataset_url code_name code_url))
          s.models }
  | ArtifactType.DATASET =>
    { s with
      datasets := dictInsert a.metadata.id ⟨a⟩ s.datasets,
      models := s.models.map (fun p =>
        (p.1, repairDataset a.metadata.id a.data.url (pnorm (some a.metadata.name)) p.2)) }
  | ArtifactType.CODE =>
    { s with
      codes := dictInsert a.metadata.id ⟨a⟩ s.codes,
      models := s.models.map (fun p =>
        (p.1, repairCode a.metadata.id a.data.url (pnorm (some a.metadata.name)) p.2)) }

/-- `get_artifact` of `backend/storage/memory.py`: point lookup in the
kind's own collection, returning the wrapped artifact. -/
def get_artifact (s : Store) (t : ArtifactType) (artifactId : String) : Option Artifact :=
  match t with
  | ArtifactType.MODEL => (dictGet artifactId s.models).map (fun r => r.artifact)
  | ArtifactType.DATASET => (dictGet artifactId s.datasets).map (fun r => r.artifact)
  | ArtifactType.CODE => (dictGet artifactId s.codes).map (fun r => r.artifact)

/-- Cascade-unlink step run by `delete_artifact` when a DATASET is
removed: a MODEL record whose `dataset_id` equals the removed id has
`dataset_id` and `dataset_url` cleared together. -/
def clearDataset (i : String) (m : ModelRecord) : ModelRecord :=
  if m.dataset_id = some i then { m with dataset_id := none, dataset_url := none } else m

/-- Cascade-unlink step run by `delete_artifact` when a CODE record is
removed (symmetric to `clearDataset`). -/
def clearCode (i : String) (m : ModelRecord) : ModelRecord :=
  if m.code_id = some i then { m with code_id := none, code_url := none } else m

/-- `delete_artifact` of `backend/storage/memory.py`: `False` and no
change when the id is absent under that kind; otherwise, for DATASET /
CODE, clear `dataset_id`+`dataset_url` (resp. `code_id`+`code_url`) of
every MODEL record whose resolved id pointed at the deleted record, then
remove the record and return `True`. -/
def delete_artifact (s : Store) (t : ArtifactType) (artifactId : String) : Bool × Store :=
  match t with
  | ArtifactType.MODEL =>
    if containsKey s.models artifactId then
      (true, { s with models := dictErase artifactId s.models })
    else (false, s)
  | ArtifactType.DATASET =>
    if containsKey s.datasets artifactId then
      (true,
        { s with
          datasets := dictErase artifactId s.datasets,
          models := s.models.map (fun p => (p.1, clearDataset artifactId p.2)) })
    else (false, s)
  | ArtifactType.CODE =>
    if containsKey s.codes artifactId then
      (true,
        { s with
          codes := dictErase artifactId s.codes,
          models := s.models.map (fun p => (p.1, clearCode artifactId p.2)) })
    else (false, s)

/-- `reset` of `backend/storage/memory.py`: clear all three collections. -/
def resetStore (_s : Store) : Store := emptyStore

/-- `_find_by_url` composed with `artifact_exists` of
`backend/storage/memory.py`: scan the kind's collection for a record
whose `data.url` equals the given url. -/
def artifact_exists (s : Store) (t : ArtifactType) (url : String) : Bool :=
  match t with
  | ArtifactType.MODEL => s.models.any (fun p => p.2.artifact.data.url = url)
  | ArtifactType.DATASET => s.datasets.any (fun p => p.2.artifact.data.url = url)
  | ArtifactType.CODE => s.codes.any (fun p => p.2.artifact.data.url = url)

/-- `save_model_rating` of `backend/storage/memory.py`: if the id is a
MODEL key, set that record's rating; otherwise no change. -/
def save_model_rating (s : Store) (artifactId : String) (rating : ModelRating) : Store :=
  { s with
    models := s.models.map (fun p =>
      (p.1, if p.1 = artifactId then { p.2 with rating := some rating } else p.2)) }

/-- `get_model_rating` of `backend/storage/memory.py`: the record's
(optional) rating, or `None` when the id is not a MODEL key. -/
def get_model_rating (s : Store) (artifactId : String) : Option ModelRating :=
  (dictGet artifactId s.models).bind (fun r => r.rating)

/-- `find_dataset_by_name` of `backend/storage/memory.py`: first DATASET
record whose normalized name equals the normalized argument. -/
def find_dataset_by_name (s : Store) (name : String) : Option DatasetRecord :=
  (s.datasets.find? (fun p =>
    normalizedName p.2.artifact.metadata.name = normalizedName name)).map (fun p => p.2)

/-- `find_code_by_name` of `backend/storage/memory.py`: first CODE record
whose normalized name equals the normalized argument. -/
def find_code_by_name (s : Store) (name : String) : Option CodeRecord :=
  (s.codes.find? (fun p =>
    normalizedName p.2.artifact.metadata.name = normalizedName name)).map (fun p => p.2)

/-! ### `backend/services/rating_service.py` -/

/-- Python `s.rstrip("/")` on the character list: drop trailing slashes. -/
def rstripSlash (l : List Char) : List Char :=
  (l.reverse.dropWhile (fun c => c = '/')).reverse

/-- Python `s.split(c)` for a one-character separator: the groups of
characters between occurrences of the separator (empty groups kept). -/
def splitChar (c : Char) (l : List Char) : List (List Char) :=
  l.foldr (fun x acc => if x = c then [] :: acc else (x :: acc.headD []) :: acc.tail) [[]]

/-- `_derive_name_from_url`: trim, strip trailing slashes, take the last
`/`-separated component; `"artifact"` for an effectively empty url. -/
def derive_name_from_url (url : String) : String :=
  let stripped := rstripSlash (trimChars url.data)
  if stripped = [] then "artifact"
  else String.mk ((splitChar '/' stripped).getLastD [])

/-- Python `pat in s`: substring containment test. -/
def containsSub (s pat : String) : Bool :=
  s.data.tails.any (fun t => pat.data.isPrefixOf t)

/-- Half-to-even integer rounding of a rational, matching Python's
`round` on the exactly-represented values this development uses. -/
def roundHalfEven (x : ℚ) : ℤ :=
  let f := ⌊x⌋
  if x - (f : ℚ) < 1 / 2 then f
  else if 1 / 2 < x - (f : ℚ) then f + 1
  else if f % 2 = 0 then f else f + 1

/-- Python `round(x, 2)`. -/
def round2 (x : ℚ) : ℚ := (roundHalfEven (x * 100) : ℚ) / 100

/-- Python `round(x, 1)`. -/
def round1 (x : ℚ) : ℚ := (roundHalfEven (x * 10) : ℚ) / 10

/-- Inputs to `compute_model_artifact` that the excluded collaborator
layer produces at run time, passed to the embedding as explicit oracle
parameters: the dataset-name and code-repository hints extracted from the
fetched model card / README (`_extract_dataset_name`,
`_extract_code_repo`), the sub-score vector returned by the metric runner
(`run_metrics`), and the size breakdown from `calculate_size_score`. -/
structure UpstreamInputs where
  dataset_name_hint : Option String
  code_repo_hint : Option String
  metrics : List ℚ
  size_scores : SizeScore
deriving DecidableEq

/-- Python `name_override or _derive_name_from_url(url)`: the override
when truthy, the name derived from the url otherwise (used by
`compute_model_artifact` and by the non-MODEL registration branch). -/
def pyStrOrDerive (pn : Option String) (url : String) : String :=
  match pn with
  | some n => if n = "" then derive_name_from_url url else n
  | none => derive_name_from_url url

/-- `compute_model_artifact` of `backend/services/rating_service.py`,
with the network-derived values supplied by an `UpstreamInputs` oracle:
derive the display name, resolve the dataset / code hints against the
store, require exactly eleven numeric sub-scores (else `ValueError`,
embedded as `Except.error`), aggregate the weighted net score rounded to
two decimals, and assemble the rating and the MODEL artifact. -/
def compute_model_artifact (s : Store) (url : String) (artifactId : String)
    (name_override : Option String) (o : UpstreamInputs) :
    Except Unit (Artifact × ModelRating × Option String × Option String × Option String × Option String) :=
  let name := pyStrOrDerive name_override url
  let code_name_hint : Option String := match o.code_repo_hint with
    | some cr => if cr = "" then none else some (derive_name_from_url cr).toLower
    | none => none
  let datasetPair : Option String × Option String :=
    match o.dataset_name_hint with
    | some h =>
      if h = "" then (none, none)
      else
        match find_dataset_by_name s h with
        | some rec => (some rec.artifact.metadata.name, some rec.artifact.data.url)
        | none => (some h, none)
    | none => (none, none)
  let codePair : Option String × Option String :=
    match code_name_hint with
    | some h =>
      if h = "" then (none, none)
      else
        match find_code_by_name s h with
        | some rec => (some rec.artifact.metadata.name, some rec.artifact.data.url)
        | none =>
          (some h,
            match o.code_repo_hint with
            | some cr => if cr ≠ "" ∧ containsSub cr "github.com" then some cr else none
            | none => none)
    | none => (none, none)
  if o.metrics.length = 11 then
    match o.metrics with
    | [net_size_score_metric, license_score, ramp_score, bus_score, dc_score,
       data_quality_score, code_quality_score, perf_score, repro_score,
       review_score, tree_score] =>
      let net_score := round2
        ((0.09 : ℚ) * license_score + (0.10 : ℚ) * ramp_score
          + (0.11 : ℚ) * net_size_score_metric + (0.13 : ℚ) * data_quality_score
          + (0.10 : ℚ) * bus_score + (0.13 : ℚ) * dc_score
          + (0.10 : ℚ) * code_quality_score + (0.09 : ℚ) * perf_score
          + (0.05 : ℚ) * repro_score + (0.05 : ℚ) * review_score
          + (0.05 : ℚ) * tree_score)
      let rating : ModelRating :=
        { name := name, category := "MODEL",
          net_score := net_score, net_score_latency := 0,
          ramp_up_time := ramp_score, ramp_up_time_latency := 0,
          bus_factor := bus_score, bus_factor_latency := 0,
          performance_claims := perf_score, performance_claims_latency := 0,
          license := license_score, license_latency := 0,
          dataset_and_code_score := dc_score, dataset_and_code_score_latency := 0,
          dataset_quality := data_quality_score, dataset_quality_latency := 0,
          code_quality := code_quality_score, code_quality_latency := 0,
          reproducibility := repro_score, reproducibility_latency := 0,
          reviewedness := review_score, reviewedness_latency := 0,
          tree_score := tree_score, tree_score_latency := 0,
          size_score := o.size_scores, size_score_latency := 0 }
      let artifact : Artifact :=
        ⟨⟨name, artifactId, ArtifactType.MODEL⟩, ⟨url, none⟩⟩
      Except.ok (artifact, rating, datasetPair.1, datasetPair.2, codePair.1, codePair.2)
    | _ => Except.error ()
  else Except.error ()

/-! ### `backend/api/routes/artifacts.py` -/

/-- Error taxonomy surfaced by the routes: HTTP 409, 404, 400 and 424
respectively. -/
inductive ApiError where
  | conflict
  | notFound
  | validationError
  | dependencyFailure
deriving DecidableEq

/-- The `if payload.name: artifact.metadata.name = payload.name` step of
the MODEL registration route: replace the display name when the caller
supplied a truthy one. -/
def applyNameOverride (a : Artifact) (pn : Option String) : Artifact :=
  match pn with
  | some n =>
    if n = "" then a else { a with metadata := { a.metadata with name := n } }
  | none => a

/-- `register_artifact` of `backend/api/routes/artifacts.py`: reject with
Conflict when `(kind, url)` already exists; for MODEL, run
`compute_model_artifact` (424 on its failure), apply the caller's name
override, save with the resolved hints, and store the rating; for other
kinds, build the artifact from the payload (name derived from the url if
absent) under a fresh id and save it.  The returned store is the input
store exactly on the error paths (the route raises before any write). -/
def register_artifact (s : Store) (t : ArtifactType) (payloadUrl : String)
    (payloadName : Option String) (freshId : String) (o : UpstreamInputs) :
    Store × Except ApiError Artifact :=
  if artifact_exists s t payloadUrl then (s, Except.error ApiError.conflict)
  else
    match t with
    | ArtifactType.MODEL =>
      match compute_model_artifact s payloadUrl freshId none o with
      | Except.error _ => (s, Except.error ApiError.dependencyFailure)
      | Except.ok (a, rating, dn, du, cn, cu) =>
        let a' := applyNameOverride a payloadName
        let s1 := save_artifact s a' (some rating) dn du cn cu
        let s2 := save_model_rating s1 a'.metadata.id rating
        (s2, Except.ok a')
    | _ =>
      let a : Artifact := ⟨⟨pyStrOrDerive payloadName payloadUrl, freshId, t⟩, ⟨payloadUrl, none⟩⟩
      (save_artifact s a none none none none none, Except.ok a)

/-- `update_artifact` of `backend/api/routes/artifacts.py`: 400 when the
payload's id or kind disagrees with the path; for MODEL, recompute the
artifact and rating exactly as registration does (424 on failure) and
save — with no existence check; for other kinds the source reads
`existing = get_artifact(artifact_type, artifact_id)` — but the name
`get_artifact` imported from the storage package at line 17 is rebound by
the route definition `async def get_artifact` at line 163 (unlike
`delete_artifact` and `get_model_rating`, it is not aliased), so
`existing` is an un-awaited coroutine object, which is always truthy:
the `if not existing: 404` branch at line 236 is unreachable and the
payload is saved unconditionally.  The returned store is the input store
exactly on the error paths. -/
def update_artifact (s : Store) (t : ArtifactType) (artifactId : String)
    (payload : Artifact) (o : UpstreamInputs) : Store × Except ApiError Artifact :=
  if payload.metadata.id = artifactId ∧ payload.metadata.type = t then
    match t with
    | ArtifactType.MODEL =>
      match compute_model_artifact s payload.data.url artifactId
          (some payload.metadata.name) o with
      | Except.error _ => (s, Except.error ApiError.dependencyFailure)
      | Except.ok (a, rating, dn, du, cn, cu) =>
        let s1 := save_artifact s a (some rating) dn du cn cu
        let s2 := save_model_rating s1 artifactId rating
        (s2, Except.ok a)
    | _ => (save_artifact s payload none none none none none, Except.ok payload)
  else (s, Except.error ApiError.validationError)

/-- `get_artifact_cost` of `backend/api/routes/artifacts.py`.  The
missing-artifact check at line 281 calls the same shadowed `get_artifact`
route coroutine as `update_artifact` (see there), so its 404 branch is
unreachable and is not modelled.  For MODEL, 404 when no rating is
stored (this lookup goes through the correctly-aliased
`storage_get_model_rating`, so a missing MODEL id still yields 404
here), otherwise `max(0, round((1 - size_score.raspberry_pi) * 1000, 1))`;
zero for every other kind, whether or not the id exists. -/
def get_artifact_cost (s : Store) (t : ArtifactType) (artifactId : String) :
    Except ApiError ℚ :=
  match t with
  | ArtifactType.MODEL =>
    match get_model_rating s artifactId with
    | none => Except.error ApiError.notFound
    | some rating =>
      Except.ok (max 0 (round1 ((1 - rating.size_score.raspberry_pi) * 1000)))
  | _ => Except.ok 0

/-! ### Store operations as a single step type (for the invariant claim) -/

/-- One mutating store operation: a put of any kind (with the optional
rating and hint keyword arguments of `save_artifact`), a delete of any
kind, or a reset. -/
inductive StoreOp where
  | save (a : Artifact) (rating : Option ModelRating)
      (dataset_name dataset_url code_name code_url : Option String)
  | del (t : ArtifactType) (artifactId : String)
  | reset
deriving DecidableEq

/-- Apply one store operation. -/
def applyOp (s : Store) : StoreOp → Store
  | StoreOp.save a r dn du cn cu => save_artifact s a r dn du cn cu
  | StoreOp.del t i => (delete_artifact s t i).2
  | StoreOp.reset => resetStore s

/-- Foreign-key condition for one optional resolved id: if set, the id
must be a key of the referenced collection. -/
def fkOk (l : List (String × α)) : Option String → Bool
  | none => true
  | some i => containsKey l i

/-- The no-dangling-foreign-keys store invariant (spec §3): every MODEL
record's resolved `dataset_id` names an existing DATASET key and every
resolved `code_id` names an existing CODE key. -/
def Invariant (s : Store) : Prop :=
  ∀ p ∈ s.models, fkOk s.datasets p.2.dataset_id = true ∧ fkOk s.codes p.2.code_id = true

instance : DecidablePred Invariant := fun s =>
  List.decidableBAll _ s.models

/-! ### Dictionary lemmas -/

theorem dictGet_insert_self (k : String) (v : α) (l : List (String × α)) :
    dictGet k (dictInsert k v l) = some v := by
  induction l with
  | nil => simp [dictInsert, dictGet]
  | cons p rest ih =>
    by_cases h : p.1 = k
    · simp [dictInsert, dictGet, h]
    · simp [dictInsert, dictGet, h, ih]

theorem dictGet_insert_ne (k' k : String) (v : α) (l : List (String × α)) (h : k' ≠ k) :
    dictGet k' (dictInsert k v l) = dictGet k' l := by
  induction l with
  | nil => simp [dictInsert, dictGet, Ne.symm h]
  | cons p rest ih =>
    by_cases hp : p.1 = k
    · simp [dictInsert, dictGet, hp, Ne.symm h]
    · simp only [dictInsert, hp, if_false]
      by_cases hp' : p.1 = k'
      · simp [dictGet, hp']
      · simp [dictGet, hp', ih]

theorem dictGet_mapVal (f : α → α) (k : String) (l : List (String × α)) :
    dictGet k (l.map (fun p => (p.1, f p.2))) = (dictGet k l).map f := by
  induction l with
  | nil => simp [dictGet]
  | cons p rest ih =>
    by_cases h : p.1 = k
    · simp [dictGet, h]
    · simp [dictGet, h, ih]

theorem dictGet_mapValKey (g : String → α → α) (k : String) (l : List (String × α)) :
    dictGet k (l.map (fun p => (p.1, g p.1 p.2))) = (dictGet k l).map (g k) := by
  induction l with
  | nil => simp [dictGet]
  | cons p rest ih =>
    by_cases h : p.1 = k
    · simp [dictGet, h]
    · simp [dictGet, h, ih]

theorem dictGet_mem {k : String} {v : α} {l : List (String × α)}
    (h : dictGet k l = some v) : (k, v) ∈ l := by
  induction l with
  | nil => simp [dictGet] at h
  | cons p rest ih =>
    obtain ⟨p1, p2⟩ := p
    by_cases hp : p1 = k
    · simp [dictGet, hp] at h
      subst hp; subst h
      exact List.mem_cons_self _ _
    · simp [dictGet, hp] at h
      exact List.mem_cons_of_mem _ (ih h)

theorem mem_dictInsert_self (k : String) (v : α) (l : List (String × α)) :
    (k, v) ∈ dictInsert k v l := by
  induction l with
  | nil => simp [dictInsert]
  | cons p rest ih =>
    by_cases h : p.1 = k
    · simp [dictInsert, h]
    · simp [dictInsert, h, ih]

theorem mem_dictInsert {p : String × α} {k : String} {v : α} {l : List (String × α)}
    (h : p ∈ dictInsert k v l) : p = (k, v) ∨ p ∈ l := by
  induction l with
  | nil => simpa [dictInsert] using h
  | cons q rest ih =>
    by_cases hq : q.1 = k
    · simp [dictInsert, hq] at h
      rcases h with h | h
      · exact Or.inl h
      · exact Or.inr (List.mem_cons_of_mem _ h)
    · simp [dictInsert, hq] at h
      rcases h with h | h
      · exact Or.inr (by simp [h])
      · rcases ih h with h' | h'
        · exact Or.inl h'
        · exact Or.inr (List.mem_cons_of_mem _ h')

theorem containsKey_iff (l : List (String × α)) (k : String) :
    containsKey l k = true ↔ ∃ p ∈ l, p.1 = k := by
  simp [containsKey, List.any_eq_true]

theorem containsKey_dictInsert_self (k : String) (v : α) (l : List (String × α)) :
    containsKey (dictInsert k v l) k = true :=
  (containsKey_iff _ _).mpr ⟨(k, v), mem_dictInsert_self k v l, rfl⟩

theorem mem_dictInsert_of_ne {p : String × α} {k : String} {v : α} {l : List (String × α)}
    (hp : p ∈ l) (hne : p.1 ≠ k) : p ∈ dictInsert k v l := by
  induction l with
  | nil => simp at hp
  | cons q rest ih =>
    by_cases hq : q.1 = k
    · simp only [dictInsert, hq, if_true]
      rcases List.mem_cons.mp hp with h' | h'
      · exact absurd (by rw [h']; exact hq) hne
      · exact List.mem_cons_of_mem _ h'
    · simp only [dictInsert, hq, if_false]
      rcases List.mem_cons.mp hp with h' | h'
      · rw [h']; exact List.mem_cons_self _ _
      · exact List.mem_cons_of_mem _ (ih h')

theorem containsKey_dictInsert_of (k' k : String) (v : α) (l : List (String × α))
    (h : containsKey l k' = true) : containsKey (dictInsert k v l) k' = true := by
  rcases (containsKey_iff _ _).mp h with ⟨p, hp, hk⟩
  by_cases hpk : p.1 = k
  · have e : k' = k := by rw [← hk, hpk]
    rw [e]; exact containsKey_dictInsert_self k v l
  · exact (containsKey_iff _ _).mpr ⟨p, mem_dictInsert_of_ne hp hpk, hk⟩

theorem containsKey_dictErase_of_ne (k' k : String) (l : List (String × α))
    (hne : k' ≠ k) (h : containsKey l k' = true) :
    containsKey (dictErase k l) k' = true := by
  rcases (containsKey_iff _ _).mp h with ⟨p, hp, hk⟩
  refine (containsKey_iff _ _).mpr ⟨p, ?_, hk⟩
  simp only [dictErase, List.mem_filter]
  exact ⟨hp, by simp [hk, hne]⟩

/-! ### Linking lemmas -/

theorem link_dataset_frame (s : Store) (m : ModelRecord) :
    (link_dataset s m).code_id = m.code_id ∧ (link_dataset s m).code_name = m.code_name ∧
    (link_dataset s m).code_url = m.code_url ∧
    (link_dataset s m).dataset_name = m.dataset_name ∧
    (link_dataset s m).rating = m.rating ∧ (link_dataset s m).artifact = m.artifact := by
  unfold link_dataset
  dsimp only
  split
  · split <;> simp
  · simp

theorem link_code_frame (s : Store) (m : ModelRecord) :
    (link_code s m).dataset_id = m.dataset_id ∧ (link_code s m).dataset_name = m.dataset_name ∧
    (link_code s m).dataset_url = m.dataset_url ∧
    (link_code s m).code_name = m.code_name ∧
    (link_code s m).rating = m.rating ∧ (link_code s m).artifact = m.artifact := by
  unfold link_code
  dsimp only
  split
  · split <;> simp
  · simp

theorem link_dataset_cases (s : Store) (m : ModelRecord) :
    link_dataset s m = m ∨
    ∃ q ∈ s.datasets, m.dataset_id = none ∧
      link_dataset s m =
        { m with dataset_id := some q.1, dataset_url := some q.2.artifact.data.url } := by
  unfold link_dataset
  dsimp only
  split
  · rename_i h
    split
    · rename_i q hq
      exact Or.inr ⟨q, List.mem_of_find?_eq_some hq, h.1, rfl⟩
    · exact Or.inl rfl
  · exact Or.inl rfl

theorem link_code_cases (s : Store) (m : ModelRecord) :
    link_code s m = m ∨
    ∃ q ∈ s.codes, m.code_id = none ∧
      link_code s m =
        { m with code_id := some q.1, code_url := some q.2.artifact.data.url } := by
  unfold link_code
  dsimp only
  split
  · rename_i h
    split
    · rename_i q hq
      exact Or.inr ⟨q, List.mem_of_find?_eq_some hq, h.1, rfl⟩
    · exact Or.inl rfl
  · exact Or.inl rfl

/-! ### Linking resolution in the in-memory backend -/

/-- In the in-memory backend, saving a DATASET (resp. CODE) record
resolves, within that same save, every previously-saved MODEL record
whose normalized `dataset_name` (resp. `code_name`) hint equals the
saved record's normalized name and whose `dataset_id` (resp. `code_id`)
is unresolved, populating the id and url from the saved record — with no
further MODEL write; a MODEL with an already-resolved id is left exactly
as it was, and no save of a DATASET or CODE record ever modifies a
`*Name` hint.  (`memory.py` guards the repair with
`dataset_id is None` / `code_id is None`; the DynamoDB backend does not
— see the claim C1 theorem below.) -/
theorem memory_saving_resolves_matching_models
    (s : Store) (a : Artifact) (r : Option ModelRating) (dn du cn cu : Option String)
    (k : String) (m : ModelRecord) (hm : dictGet k s.models = some m) :
    (a.metadata.type = ArtifactType.DATASET →
      (m.dataset_id = none → pnorm m.dataset_name = pnorm (some a.metadata.name) →
        dictGet k (save_artifact s a r dn du cn cu).models =
          some { m with dataset_id := some a.metadata.id, dataset_url := some a.data.url }) ∧
      (m.dataset_id ≠ none →
        dictGet k (save_artifact s a r dn du cn cu).models = some m) ∧
      (∀ m', dictGet k (save_artifact s a r dn du cn cu).models = some m' →
        m'.dataset_name = m.dataset_name ∧ m'.code_name = m.code_name)) ∧
    (a.metadata.type = ArtifactType.CODE →
      (m.code_id = none → pnorm m.code_name = pnorm (some a.metadata.name) →
        dictGet k (save_artifact s a r dn du cn cu).models =
          some { m with code_id := some a.metadata.id, code_url := some a.data.url }) ∧
      (m.code_id ≠ none →
        dictGet k (save_artifact s a r dn du cn cu).models = some m) ∧
      (∀ m', dictGet k (save_artifact s a r dn du cn cu).models = some m' →
        m'.code_name = m.code_name ∧ m'.dataset_name = m.dataset_name)) := by
  constructor
  · intro hty
    have hmodels : (save_artifact s a r dn du cn cu).models =
        s.models.map (fun p =>
          (p.1, repairDataset a.metadata.id a.data.url (pnorm (some a.metadata.name)) p.2)) := by
      simp [save_artifact, hty]
    rw [hmodels, dictGet_mapVal, hm]
    refine ⟨?_, ?_, ?_⟩
    · intro h1 h2
      simp [repairDataset, h1, h2]
    · intro h1
      have hrep : repairDataset a.metadata.id a.data.url (pnorm (some a.metadata.name)) m = m := by
        unfold repairDataset
        rw [if_neg (fun hc => h1 hc.1)]
      simp only [Option.map_some', hrep]
    · intro m' hm'
      simp only [Option.map_some', Option.some_inj] at hm'
      rw [← hm']
      unfold repairDataset
      split <;> simp
  · intro hty
    have hmodels : (save_artifact s a r dn du cn cu).models =
        s.models.map (fun p =>
          (p.1, repairCode a.metadata.id a.data.url (pnorm (some a.metadata.name)) p.2)) := by
      simp [save_artifact, hty]
    rw [hmodels, dictGet_mapVal, hm]
    refine ⟨?_, ?_, ?_⟩
    · intro h1 h2
      simp [repairCode, h1, h2]
    · intro h1
      have hrep : repairCode a.metadata.id a.data.url (pnorm (some a.metadata.name)) m = m := by
        unfold repairCode
        rw [if_neg (fun hc => h1 hc.1)]
      simp only [Option.map_some', hrep]
    · intro m' hm'
      simp only [Option.map_some', Option.some_inj] at hm'
      rw [← hm']
      unfold repairCode
      split <;> simp

/-- Concrete MODEL artifact for the in-memory resolution example. -/
def memAM : Artifact := ⟨⟨"M", "m1", ArtifactType.MODEL⟩, ⟨"mu", none⟩⟩

/-- Concrete DATASET artifact named `"Foo"` for the example. -/
def memAD : Artifact := ⟨⟨"Foo", "d1", ArtifactType.DATASET⟩, ⟨"du", none⟩⟩

/-- Concrete MODEL record with an unresolved `dataset_name = " foo "`
hint for the example. -/
def memM : ModelRecord :=
  { artifact := memAM, rating := none, dataset_id := none, dataset_name := some " foo ",
    dataset_url := none, code_id := none, code_name := none, code_url := none }

/-- Concrete store holding only the hinted MODEL for the example. -/
def memS : Store := ⟨[("m1", memM)], [], []⟩

/-- Concrete run of the in-memory resolution: saving the DATASET
`"Foo"` populates the matching MODEL's `dataset_id`/`dataset_url`. -/
theorem memory_saving_resolves_matching_models_example :
    dictGet "m1" (save_artifact memS memAD none none none none none).models =
      some { memM with dataset_id := some "d1", dataset_url := some "du" } :=
  (((memory_saving_resolves_matching_models memS memAD none none none none none "m1" memM
      (by decide)).1 (by decide)).1) (by decide) (by decide)

/-! ### Claim C1: the exported DynamoDB backend -/

/-- A row of the DynamoDB artifacts table (`backend/storage/dynamodb.py`),
with the attribute-value encoding (each attribute wrapped as an `"S"` or
`"M"` map) elided: one item per artifact keyed by `artifact_id`, carrying
the kind, the serialized artifact body, the url, the normalized name and
— for MODEL rows — the optional link attributes and the serialized
rating; exactly the attributes `save_artifact` reads and writes, with an
absent attribute embedded as `none`. -/
structure DdbItem where
  artifact_id : String
  artifact_type : ArtifactType
  artifact : Artifact
  url : String
  name_normalized : String
  dataset_id : Option String
  dataset_name : Option String
  dataset_url : Option String
  code_id : Option String
  code_name : Option String
  code_url : Option String
  rating : Option ModelRating
deriving DecidableEq

/-- `_put_item` of `backend/storage/dynamodb.py`: overwrite the row with
the same `artifact_id`, or add the row. -/
def ddbPut (item : DdbItem) : List DdbItem → List DdbItem
  | [] => [item]
  | it :: rest =>
    if it.artifact_id = item.artifact_id then item :: rest else it :: ddbPut item rest

/-- The DATASET branch of `save_artifact` in `backend/storage/dynamodb.py`
— the backend `backend/storage/__init__.py` exports to the routes: scan
the table and, for every MODEL row whose normalized `dataset_name`
attribute (an absent attribute is read as `""`) equals the saved
dataset's normalized name, write `dataset_id` and `dataset_url` from the
saved record back into the row — the condition checks the name only:
unlike `memory.py` lines 106 and 113, and unlike this module's own
`_link_dataset_code` (lines 212 and 226), there is no
`dataset_id`-is-absent guard — and finally put the new DATASET row.  The
CODE branch (lines 323-332) is symmetric and equally unguarded. -/
def ddb_save_dataset (tbl : List DdbItem) (a : Artifact) : List DdbItem :=
  let nn := normalizedName a.metadata.name
  let tbl1 := tbl.map (fun it =>
    if it.artifact_type = ArtifactType.MODEL ∧
        normalizedName (it.dataset_name.getD "") = nn then
      { it with dataset_id := some a.metadata.id, dataset_url := some a.data.url }
    else it)
  ddbPut
    { artifact_id := a.metadata.id, artifact_type := ArtifactType.DATASET,
      artifact := a, url := a.data.url, name_normalized := nn,
      dataset_id := none, dataset_name := none, dataset_url := none,
      code_id := none, code_name := none, code_url := none, rating := none } tbl1

/-- DynamoDB MODEL row whose `dataset_name` hint `"foo"` is already
resolved against DATASET `d1`, for the C1 failing input. -/
def c1DdbModel : DdbItem :=
  { artifact_id := "mB", artifact_type := ArtifactType.MODEL,
    artifact := ⟨⟨"M", "mB", ArtifactType.MODEL⟩, ⟨"muB", none⟩⟩, url := "muB",
    name_normalized := "m", dataset_id := some "d1", dataset_name := some "foo",
    dataset_url := some "du1", code_id := none, code_name := none,
    code_url := none, rating := none }

/-- The DATASET row `d1` named `"foo"` that the MODEL is resolved
against, for the C1 failing input. -/
def c1DdbD1 : DdbItem :=
  { artifact_id := "d1", artifact_type := ArtifactType.DATASET,
    artifact := ⟨⟨"foo", "d1", ArtifactType.DATASET⟩, ⟨"du1", none⟩⟩, url := "du1",
    name_normalized := "foo", dataset_id := none, dataset_name := none,
    dataset_url := none, code_id := none, code_name := none, code_url := none,
    rating := none }

/-- The C1 failing-input table: the resolved MODEL and its DATASET. -/
def c1DdbTbl : List DdbItem := [c1DdbModel, c1DdbD1]

/-- A second DATASET, also named `"foo"` (a distinct url, so the
kind+url uniqueness check does not reject it), saved afterwards. -/
def c1DdbNew : Artifact := ⟨⟨"foo", "d2", ArtifactType.DATASET⟩, ⟨"du2", none⟩⟩

/-- Claim C1, evaluated at its failing input over the DynamoDB backend
that the storage package exports: the claim says resolution on a DATASET
(or CODE) save fills only unresolved ids and never changes an
already-resolved ID, but the MODEL row here is resolved
(`dataset_id = "d1"`, `dataset_url = "du1"`) and saving a second DATASET
with the matching name overwrites both to the new record's
`"d2"`/`"du2"` — the name-only repair condition of
`dynamodb.py` lines 313-332 fills no gap.  The in-memory backend does
satisfy the claim (`memory_saving_resolves_matching_models`), as does
the spec (4.3) and this module's own model-save-side linker, so the
missing guard is a slip in the code, not intent. -/
theorem c1_dynamodb_repair_overwrites_resolved_id :
    (c1DdbTbl.find? (fun it => it.artifact_id = "mB")).map
      (fun it => (it.dataset_id, it.dataset_url)) = some (some "d1", some "du1") ∧
    ((ddb_save_dataset c1DdbTbl c1DdbNew).find? (fun it => it.artifact_id = "mB")).map
      (fun it => (it.dataset_id, it.dataset_url)) = some (some "d2", some "du2") := by
  decide

/-! ### Frame lemmas for the artifact payload -/

theorem link_dataset_code_artifact (s : Store) (m : ModelRecord) :
    (link_dataset_code s m).artifact = m.artifact := by
  unfold link_dataset_code
  rw [(link_code_frame s (link_dataset s m)).2.2.2.2.2,
    (link_dataset_frame s m).2.2.2.2.2]

theorem repairDataset_artifact (i u : String) (n : Option String) (m : ModelRecord) :
    (repairDataset i u n m).artifact = m.artifact := by
  unfold repairDataset
  split <;> rfl

theorem repairCode_artifact (i u : String) (n : Option String) (m : ModelRecord) :
    (repairCode i u n m).artifact = m.artifact := by
  unfold repairCode
  split <;> rfl

theorem clearDataset_artifact (i : String) (m : ModelRecord) :
    (clearDataset i m).artifact = m.artifact := by
  unfold clearDataset
  split <;> rfl

theorem clearCode_artifact (i : String) (m : ModelRecord) :
    (clearCode i m).artifact = m.artifact := by
  unfold clearCode
  split <;> rfl

/-- Shape of a MODEL save: some record whose artifact is the saved one is
inserted under the artifact's id, and the other two collections are
untouched. -/
theorem save_artifact_model_shape (s : Store) (a : Artifact) (r : Option ModelRating)
    (dn du cn cu : Option String) (hty : a.metadata.type = ArtifactType.MODEL) :
    ∃ rec : ModelRecord, rec.artifact = a ∧
      (save_artifact s a r dn du cn cu).models = dictInsert a.metadata.id rec s.models ∧
      (save_artifact s a r dn du cn cu).datasets = s.datasets ∧
      (save_artifact s a r dn du cn cu).codes = s.codes := by
  cases hget : dictGet a.metadata.id s.models with
  | some r0 =>
    refine ⟨link_dataset_code s (updateModelRecord r0 a r dn du cn cu),
      by rw [link_dataset_code_artifact]; rfl, ?_, ?_, ?_⟩ <;>
      simp [save_artifact, hty, hget]
  | none =>
    refine ⟨link_dataset_code s (newModelRecord a r dn du cn cu),
      by rw [link_dataset_code_artifact]; rfl, ?_, ?_, ?_⟩ <;>
      simp [save_artifact, hty, hget]

/-! ### Claim C8 -/

/-- Claim C8: a `get` under the record's own kind immediately after a
`put` returns exactly the artifact that was put, and — the id being
fresh for the other kinds, as the global id generator guarantees — a
`get` under any different kind with the same id returns absent: the kind
is part of the lookup key. -/
theorem c8_get_after_put (s : Store) (a : Artifact) (r : Option ModelRating)
    (dn du cn cu : Option String)
    (h : ∀ t, t ≠ a.metadata.type → get_artifact s t a.metadata.id = none) :
    get_artifact (save_artifact s a r dn du cn cu) a.metadata.type a.metadata.id = some a ∧
    ∀ t, t ≠ a.metadata.type →
      get_artifact (save_artifact s a r dn du cn cu) t a.metadata.id = none := by
  cases hty : a.metadata.type with
  | MODEL =>
    rcases save_artifact_model_shape s a r dn du cn cu hty with ⟨rec, hra, hm', hd', hc'⟩
    constructor
    · simp [get_artifact, hm', dictGet_insert_self, hra]
    · intro t ht
      cases t with
      | MODEL => exact absurd rfl ht
      | DATASET => simpa [get_artifact, hd'] using h ArtifactType.DATASET (by rw [hty]; exact ht)
      | CODE => simpa [get_artifact, hc'] using h ArtifactType.CODE (by rw [hty]; exact ht)
  | DATASET =>
    have hm' : (save_artifact s a r dn du cn cu).models =
        s.models.map (fun p =>
          (p.1, repairDataset a.metadata.id a.data.url (pnorm (some a.metadata.name)) p.2)) := by
      simp [save_artifact, hty]
    have hd' : (save_artifact s a r dn du cn cu).datasets =
        dictInsert a.metadata.id ⟨a⟩ s.datasets := by
      simp [save_artifact, hty]
    have hc' : (save_artifact s a r dn du cn cu).codes = s.codes := by
      simp [save_artifact, hty]
    constructor
    · simp [get_artifact, hd', dictGet_insert_self]
    · intro t ht
      cases t with
      | DATASET => exact absurd rfl ht
      | MODEL =>
        have h0 := h ArtifactType.MODEL (by rw [hty]; exact ht)
        simp only [get_artifact] at h0 ⊢
        rw [hm', dictGet_mapVal]
        rcases Option.map_eq_none'.mp h0 with h1
        rw [h1]
        rfl
      | CODE => simpa [get_artifact, hc'] using h ArtifactType.CODE (by rw [hty]; exact ht)
  | CODE =>
    have hm' : (save_artifact s a r dn du cn cu).models =
        s.models.map (fun p =>
          (p.1, repairCode a.metadata.id a.data.url (pnorm (some a.metadata.name)) p.2)) := by
      simp [save_artifact, hty]
    have hc' : (save_artifact s a r dn du cn cu).codes =
        dictInsert a.metadata.id ⟨a⟩ s.codes := by
      simp [save_artifact, hty]
    have hd' : (save_artifact s a r dn du cn cu).datasets = s.datasets := by
      simp [save_artifact, hty]
    constructor
    · simp [get_artifact, hc', dictGet_insert_self]
    · intro t ht
      cases t with
      | CODE => exact absurd rfl ht
      | MODEL =>
        have h0 := h ArtifactType.MODEL (by rw [hty]; exact ht)
        simp only [get_artifact] at h0 ⊢
        rw [hm', dictGet_mapVal]
        rcases Option.map_eq_none'.mp h0 with h1
        rw [h1]
        rfl
      | DATASET => simpa [get_artifact, hd'] using h ArtifactType.DATASET (by rw [hty]; exact ht)

/-- Concrete DATASET artifact for the C8 witness. -/
def c8A : Artifact := ⟨⟨"D", "d8", ArtifactType.DATASET⟩, ⟨"du8", none⟩⟩

/-- Witness for C8 at the empty store: after putting a DATASET, getting
it as DATASET returns it and getting the same id as MODEL or CODE is
absent. -/
theorem c8_get_after_put_witness :
    get_artifact (save_artifact emptyStore c8A none none none none none)
      ArtifactType.DATASET "d8" = some c8A ∧
    get_artifact (save_artifact emptyStore c8A none none none none none)
      ArtifactType.MODEL "d8" = none :=
  ⟨(c8_get_after_put emptyStore c8A none none none none none
      (by intro t ht; cases t <;> rfl)).1,
    (c8_get_after_put emptyStore c8A none none none none none
      (by intro t ht; cases t <;> rfl)).2 ArtifactType.MODEL (by decide)⟩

/-! ### Claim C9 -/

/-- Claim C9: deleting a DATASET record that a MODEL's `dataset_id`
points to succeeds and leaves that MODEL equal to itself with
`dataset_id` and `dataset_url` both cleared — so the two are cleared
together and every other field (`dataset_name`, `code_name`, `code_id`,
`code_url`, `rating`, the artifact body) is unchanged; symmetrically for
deleting a referenced CODE record. -/
theorem c9_delete_clears_links (s : Store) (k : String) (m : ModelRecord)
    (hm : dictGet k s.models = some m) :
    (∀ d, m.dataset_id = some d → containsKey s.datasets d = true →
      (delete_artifact s ArtifactType.DATASET d).1 = true ∧
      dictGet k (delete_artifact s ArtifactType.DATASET d).2.models =
        some { m with dataset_id := none, dataset_url := none }) ∧
    (∀ c, m.code_id = some c → containsKey s.codes c = true →
      (delete_artifact s ArtifactType.CODE c).1 = true ∧
      dictGet k (delete_artifact s ArtifactType.CODE c).2.models =
        some { m with code_id := none, code_url := none }) := by
  constructor
  · intro d hd hcd
    refine ⟨by simp [delete_artifact, hcd], ?_⟩
    have hmodels : (delete_artifact s ArtifactType.DATASET d).2.models =
        s.models.map (fun p => (p.1, clearDataset d p.2)) := by
      simp [delete_artifact, hcd]
    rw [hmodels, dictGet_mapVal, hm]
    simp [clearDataset, hd]
  · intro c hc hcc
    refine ⟨by simp [delete_artifact, hcc], ?_⟩
    have hmodels : (delete_artifact s ArtifactType.CODE c).2.models =
        s.models.map (fun p => (p.1, clearCode c p.2)) := by
      simp [delete_artifact, hcc]
    rw [hmodels, dictGet_mapVal, hm]
    simp [clearCode, hc]

/-- Concrete linked MODEL record for the C9 witness. -/
def c9M : ModelRecord :=
  { artifact := ⟨⟨"M", "m9", ArtifactType.MODEL⟩, ⟨"mu9", none⟩⟩, rating := none,
    dataset_id := some "d9", dataset_name := some "d", dataset_url := some "du9",
    code_id := none, code_name := none, code_url := none }

/-- Concrete store for the C9 witness: one MODEL resolved against one
DATASET. -/
def c9S : Store :=
  ⟨[("m9", c9M)], [("d9", ⟨⟨⟨"d", "d9", ArtifactType.DATASET⟩, ⟨"du9", none⟩⟩⟩)], []⟩

/-- Witness for C9: deleting the referenced DATASET clears the MODEL's
`dataset_id` and `dataset_url` together and keeps `dataset_name`. -/
theorem c9_delete_clears_links_witness :
    (delete_artifact c9S ArtifactType.DATASET "d9").1 = true ∧
    dictGet "m9" (delete_artifact c9S ArtifactType.DATASET "d9").2.models =
      some { c9M with dataset_id := none, dataset_url := none } :=
  (c9_delete_clears_links c9S "m9" c9M (by decide)).1 "d9" (by decide) (by decide)

/-! ### Route-level lemmas -/

theorem applyNameOverride_frame (a : Artifact) (pn : Option String) :
    (applyNameOverride a pn).metadata.type = a.metadata.type ∧
    (applyNameOverride a pn).metadata.id = a.metadata.id ∧
    (applyNameOverride a pn).data = a.data := by
  unfold applyNameOverride
  cases pn with
  | none => exact ⟨rfl, rfl, rfl⟩
  | some n =>
    by_cases hn : n = "" <;> simp [hn]

theorem compute_ok_facts (s : Store) (url artifactId : String) (no : Option String)
    (o : UpstreamInputs) (a : Artifact) (rt : ModelRating) (dn du cn cu : Option String)
    (h : compute_model_artifact s url artifactId no o = Except.ok (a, rt, dn, du, cn, cu)) :
    a.metadata.type = ArtifactType.MODEL ∧ a.data.url = url ∧ a.metadata.id = artifactId := by
  unfold compute_model_artifact at h
  dsimp only at h
  split at h
  · split at h
    · simp only [Except.ok.injEq, Prod.mk.injEq] at h
      obtain ⟨h1, _⟩ := h
      refine ⟨?_, ?_, ?_⟩ <;> rw [← h1]
    · exact absurd h (by simp)
  · exact absurd h (by simp)

theorem compute_error_of_bad_metrics (s : Store) (url artifactId : String)
    (no : Option String) (o : UpstreamInputs) (h : o.metrics.length ≠ 11) :
    compute_model_artifact s url artifactId no o = Except.error () := by
  unfold compute_model_artifact
  simp only [if_neg h]

theorem artifact_exists_after_save (s : Store) (a : Artifact) (r : Option ModelRating)
    (dn du cn cu : Option String) (t : ArtifactType) (url : String)
    (hty : a.metadata.type = t) (hurl : a.data.url = url) :
    artifact_exists (save_artifact s a r dn du cn cu) t url = true := by
  subst hty
  subst hurl
  cases hty : a.metadata.type with
  | MODEL =>
    rcases save_artifact_model_shape s a r dn du cn cu hty with ⟨rec, hra, hm', _, _⟩
    simp only [artifact_exists, hm']
    refine List.any_eq_true.mpr ⟨(a.metadata.id, rec), mem_dictInsert_self _ _ _, ?_⟩
    simp [hra]
  | DATASET =>
    have hd' : (save_artifact s a r dn du cn cu).datasets =
        dictInsert a.metadata.id ⟨a⟩ s.datasets := by
      simp [save_artifact, hty]
    simp only [artifact_exists, hd']
    refine List.any_eq_true.mpr ⟨(a.metadata.id, ⟨a⟩), mem_dictInsert_self _ _ _, ?_⟩
    simp
  | CODE =>
    have hc' : (save_artifact s a r dn du cn cu).codes =
        dictInsert a.metadata.id ⟨a⟩ s.codes := by
      simp [save_artifact, hty]
    simp only [artifact_exists, hc']
    refine List.any_eq_true.mpr ⟨(a.metadata.id, ⟨a⟩), mem_dictInsert_self _ _ _, ?_⟩
    simp

theorem artifact_exists_save_model_rating (s : Store) (i : String) (rt : ModelRating)
    (t : ArtifactType) (url : String) :
    artifact_exists (save_model_rating s i rt) t url = artifact_exists s t url := by
  cases t with
  | MODEL =>
    simp only [artifact_exists, save_model_rating]
    induction s.models with
    | nil => rfl
    | cons p rest ih =>
      simp only [List.map_cons, List.any_cons, ih]
      congr 1
      split <;> rfl
  | DATASET => rfl
  | CODE => rfl

/-! ### Claim C3 -/

/-- Claim C3: when a record with the given kind and url already exists,
a registration attempt with that kind and url fails with Conflict and
returns the store unchanged; consequently registering twice with the same
kind and url (whatever the second call's payload name, fresh id or
upstream oracle) yields Conflict on the second attempt with no mutation. -/
theorem c3_duplicate_registration_conflict (s : Store) (t : ArtifactType) (url : String)
    (pn pn' : Option String) (fid fid' : String) (o o' : UpstreamInputs) :
    (artifact_exists s t url = true →
      register_artifact s t url pn fid o = (s, Except.error ApiError.conflict)) ∧
    (∀ s₁ a, register_artifact s t url pn fid o = (s₁, Except.ok a) →
      register_artifact s₁ t url pn' fid' o' = (s₁, Except.error ApiError.conflict)) := by
  constructor
  · intro h
    simp [register_artifact, h]
  · intro s₁ a h
    have hex : artifact_exists s₁ t url = true := by
      unfold register_artifact at h
      by_cases hb : artifact_exists s t url = true
      · rw [if_pos hb] at h
        simp at h
      · rw [if_neg hb] at h
        cases t with
        | MODEL =>
          dsimp only at h
          cases hc : compute_model_artifact s url fid none o with
          | error e =>
            rw [hc] at h
            simp at h
          | ok res =>
            obtain ⟨a0, rt, dn0, du0, cn0, cu0⟩ := res
            rw [hc] at h
            dsimp only at h
            simp only [Prod.mk.injEq] at h
            obtain ⟨hs, _⟩ := h
            rw [← hs, artifact_exists_save_model_rating]
            rcases compute_ok_facts s url fid none o a0 rt dn0 du0 cn0 cu0 hc with
              ⟨hty0, hurl0, _⟩
            rcases applyNameOverride_frame a0 pn with ⟨hty1, _, hd1⟩
            exact artifact_exists_after_save _ _ _ _ _ _ _ _ _
              (by rw [hty1, hty0]) (by rw [hd1, hurl0])
        | DATASET =>
          dsimp only at h
          simp only [Prod.mk.injEq] at h
          obtain ⟨hs, _⟩ := h
          rw [← hs]
          exact artifact_exists_after_save _ _ _ _ _ _ _ _ _ rfl rfl
        | CODE =>
          dsimp only at h
          simp only [Prod.mk.injEq] at h
          obtain ⟨hs, _⟩ := h
          rw [← hs]
          exact artifact_exists_after_save _ _ _ _ _ _ _ _ _ rfl rfl
    simp [register_artifact, hex]

/-- Concrete store for the C3 witness: a DATASET with url `"u3"` already
registered. -/
def c3S : Store :=
  ⟨[], [("d3", ⟨⟨⟨"D", "d3", ArtifactType.DATASET⟩, ⟨"u3", none⟩⟩⟩)], []⟩

/-- Upstream oracle with an empty metric vector, for witnesses. -/
def emptyOracle : UpstreamInputs := ⟨none, none, [], ⟨0, 0, 0, 0⟩⟩

/-- Witness for C3: re-registering `(DATASET, "u3")` against the concrete
store is rejected with Conflict and the store is returned unchanged. -/
theorem c3_duplicate_registration_conflict_witness :
    register_artifact c3S ArtifactType.DATASET "u3" none "fresh" emptyOracle =
      (c3S, Except.error ApiError.conflict) :=
  (c3_duplicate_registration_conflict c3S ArtifactType.DATASET "u3" none none
    "fresh" "fresh" emptyOracle emptyOracle).1 (by decide)

/-! ### Rounding lemmas -/

theorem roundHalfEven_intCast (n : ℤ) : roundHalfEven ((n : ℚ)) = n := by
  unfold roundHalfEven
  rw [Int.floor_intCast]
  norm_num

theorem round2_intCast (n : ℤ) : round2 ((n : ℚ)) = n := by
  unfold round2
  rw [show ((n : ℚ) * 100) = (((n * 100 : ℤ) : ℚ)) by push_cast; ring,
    roundHalfEven_intCast]
  push_cast
  ring

theorem round1_intCast (n : ℤ) : round1 ((n : ℚ)) = n := by
  unfold round1
  rw [show ((n : ℚ) * 10) = (((n * 10 : ℤ) : ℚ)) by push_cast; ring,
    roundHalfEven_intCast]
  push_cast
  ring

/-! ### Claim C6 -/

/-- Net score carried by a successful `compute_model_artifact` result. -/
def computedNetScore
    (e : Except Unit (Artifact × ModelRating × Option String × Option String × Option String × Option String)) :
    Option ℚ :=
  match e with
  | Except.ok x => some x.2.1.net_score
  | Except.error _ => none

/-- Claim C6: for every vector of eleven sub-scores the aggregated net
score is the weighted sum rounded to two decimals under exactly the
fixed weights — license 0.09, ramp-up 0.10, size 0.11, dataset-quality
0.13, bus-factor 0.10, dataset-and-code availability 0.13, code-quality
0.10, performance-claims 0.09, reproducibility 0.05, reviewedness 0.05,
tree/structure 0.05 (the metric vector carries the size sub-score first,
then license, ramp-up, bus-factor, availability, dataset-quality,
code-quality, performance, reproducibility, reviewedness, tree, as the
source destructures it) — and all-ones aggregates to 1.00, all-zeros to
0.00. -/
theorem c6_aggregate_weighted_sum (s : Store) (url artifactId : String)
    (no dnh crh : Option String) (sz : SizeScore)
    (siz lic ramp bus dc dq cq perf repro rev tree : ℚ) :
    computedNetScore (compute_model_artifact s url artifactId no
        ⟨dnh, crh, [siz, lic, ramp, bus, dc, dq, cq, perf, repro, rev, tree], sz⟩) =
      some (round2 ((0.09 : ℚ) * lic + (0.10 : ℚ) * ramp + (0.11 : ℚ) * siz
        + (0.13 : ℚ) * dq + (0.10 : ℚ) * bus + (0.13 : ℚ) * dc + (0.10 : ℚ) * cq
        + (0.09 : ℚ) * perf + (0.05 : ℚ) * repro + (0.05 : ℚ) * rev
        + (0.05 : ℚ) * tree)) ∧
    computedNetScore (compute_model_artifact s url artifactId no
        ⟨dnh, crh, [1, 1, 1, 1, 1, 1, 1, 1, 1, 1, 1], sz⟩) = some 1 ∧
    computedNetScore (compute_model_artifact s url artifactId no
        ⟨dnh, crh, [0, 0, 0, 0, 0, 0, 0, 0, 0, 0, 0], sz⟩) = some 0 := by
  have hgen : ∀ a0 a1 a2 a3 a4 a5 a6 a7 a8 a9 a10 : ℚ,
      computedNetScore (compute_model_artifact s url artifactId no
        ⟨dnh, crh, [a0, a1, a2, a3, a4, a5, a6, a7, a8, a9, a10], sz⟩) =
      some (round2 ((0.09 : ℚ) * a1 + (0.10 : ℚ) * a2 + (0.11 : ℚ) * a0
        + (0.13 : ℚ) * a5 + (0.10 : ℚ) * a3 + (0.13 : ℚ) * a4 + (0.10 : ℚ) * a6
        + (0.09 : ℚ) * a7 + (0.05 : ℚ) * a8 + (0.05 : ℚ) * a9
        + (0.05 : ℚ) * a10)) := by
    intro a0 a1 a2 a3 a4 a5 a6 a7 a8 a9 a10
    simp [compute_model_artifact, computedNetScore]
  refine ⟨hgen siz lic ramp bus dc dq cq perf repro rev tree, ?_, ?_⟩
  · rw [hgen 1 1 1 1 1 1 1 1 1 1 1,
      show ((0.09 : ℚ) * 1 + (0.10 : ℚ) * 1 + (0.11 : ℚ) * 1 + (0.13 : ℚ) * 1
        + (0.10 : ℚ) * 1 + (0.13 : ℚ) * 1 + (0.10 : ℚ) * 1 + (0.09 : ℚ) * 1
        + (0.05 : ℚ) * 1 + (0.05 : ℚ) * 1 + (0.05 : ℚ) * 1) = (((1 : ℤ) : ℚ)) by norm_num,
      round2_intCast]
    norm_num
  · rw [hgen 0 0 0 0 0 0 0 0 0 0 0,
      show ((0.09 : ℚ) * 0 + (0.10 : ℚ) * 0 + (0.11 : ℚ) * 0 + (0.13 : ℚ) * 0
        + (0.10 : ℚ) * 0 + (0.13 : ℚ) * 0 + (0.10 : ℚ) * 0 + (0.09 : ℚ) * 0
        + (0.05 : ℚ) * 0 + (0.05 : ℚ) * 0 + (0.05 : ℚ) * 0) = (((0 : ℤ) : ℚ)) by norm_num,
      round2_intCast]
    norm_num

/-! ### Claim C5 -/

/-- Claim C5: when the upstream sub-score computation does not yield
exactly eleven numeric values, a MODEL registration (when no conflicting
url pre-empts it) and a MODEL update (with a path-consistent payload)
both fail with DependencyFailure — a condition distinct from NotFound
and from Conflict — and return the store unchanged: nothing is
persisted. -/
theorem c5_dependency_failure (s : Store) (url : String) (pn : Option String)
    (fid artifactId : String) (o : UpstreamInputs) (payload : Artifact)
    (hm : o.metrics.length ≠ 11) :
    (artifact_exists s ArtifactType.MODEL url = false →
      register_artifact s ArtifactType.MODEL url pn fid o =
        (s, Except.error ApiError.dependencyFailure)) ∧
    (payload.metadata.id = artifactId → payload.metadata.type = ArtifactType.MODEL →
      update_artifact s ArtifactType.MODEL artifactId payload o =
        (s, Except.error ApiError.dependencyFailure)) ∧
    (ApiError.dependencyFailure ≠ ApiError.notFound ∧
      ApiError.dependencyFailure ≠ ApiError.conflict) := by
  refine ⟨?_, ?_, by decide, by decide⟩
  · intro hx
    simp [register_artifact, hx, compute_error_of_bad_metrics s url fid none o hm]
  · intro h1 h2
    simp [update_artifact, h1, h2,
      compute_error_of_bad_metrics s payload.data.url artifactId
        (some payload.metadata.name) o hm]

/-- Concrete MODEL payload for the C5 witness. -/
def c5P : Artifact := ⟨⟨"m", "m5", ArtifactType.MODEL⟩, ⟨"u5", none⟩⟩

/-- Witness for C5: with an empty metric vector, MODEL registration and
MODEL update on the empty store both report DependencyFailure and leave
the store empty. -/
theorem c5_dependency_failure_witness :
    register_artifact emptyStore ArtifactType.MODEL "u5" none "m5" emptyOracle =
      (emptyStore, Except.error ApiError.dependencyFailure) ∧
    update_artifact emptyStore ArtifactType.MODEL "m5" c5P emptyOracle =
      (emptyStore, Except.error ApiError.dependencyFailure) :=
  ⟨(c5_dependency_failure emptyStore "u5" none "m5" "m5" emptyOracle c5P
      (by decide)).1 (by decide),
    (c5_dependency_failure emptyStore "u5" none "m5" "m5" emptyOracle c5P
      (by decide)).2.1 (by decide) (by decide)⟩

/-! ### Claim C7 -/

/-- Claim C7: for an existing MODEL artifact with a stored rating the
cost endpoint returns `max(0, round((1 - sizeScore.raspberry_pi) * 1000, 1))`
— in particular 500.0 when `raspberry_pi = 0.5` and 0.0 when
`raspberry_pi = 1.0` — and for an existing artifact of any non-MODEL
kind the cost is 0.0. -/
theorem c7_cost_formula (s : Store) (artifactId : String) (a : Artifact) :
    (∀ r : ModelRating, get_artifact s ArtifactType.MODEL artifactId = some a →
      get_model_rating s artifactId = some r →
      get_artifact_cost s ArtifactType.MODEL artifactId =
        Except.ok (max 0 (round1 ((1 - r.size_score.raspberry_pi) * 1000))) ∧
      (r.size_score.raspberry_pi = 1 / 2 →
        get_artifact_cost s ArtifactType.MODEL artifactId = Except.ok 500) ∧
      (r.size_score.raspberry_pi = 1 →
        get_artifact_cost s ArtifactType.MODEL artifactId = Except.ok 0)) ∧
    (∀ t, t ≠ ArtifactType.MODEL → get_artifact s t artifactId = some a →
      get_artifact_cost s t artifactId = Except.ok 0) := by
  constructor
  · intro r hga hr
    have hmain : get_artifact_cost s ArtifactType.MODEL artifactId =
        Except.ok (max 0 (round1 ((1 - r.size_score.raspberry_pi) * 1000))) := by
      simp [get_artifact_cost, hga, hr]
    refine ⟨hmain, ?_, ?_⟩
    · intro hrpi
      rw [hmain, hrpi,
        show ((1 : ℚ) - 1 / 2) * 1000 = (((500 : ℤ) : ℚ)) by norm_num,
        round1_intCast]
      norm_num
    · intro hrpi
      rw [hmain, hrpi,
        show ((1 : ℚ) - 1) * 1000 = (((0 : ℤ) : ℚ)) by norm_num,
        round1_intCast]
      norm_num
  · intro t ht hga
    cases t with
    | MODEL => exact absurd rfl ht
    | DATASET => simp [get_artifact_cost, hga]
    | CODE => simp [get_artifact_cost, hga]

/-- Concrete rating with `raspberry_pi = 1/2` for the C7 witness. -/
def c7R : ModelRating :=
  { name := "m", category := "MODEL", net_score := 0, net_score_latency := 0,
    ramp_up_time := 0, ramp_up_time_latency := 0, bus_factor := 0,
    bus_factor_latency := 0, performance_claims := 0, performance_claims_latency := 0,
    license := 0, license_latency := 0, dataset_and_code_score := 0,
    dataset_and_code_score_latency := 0, dataset_quality := 0,
    dataset_quality_latency := 0, code_quality := 0, code_quality_latency := 0,
    reproducibility := 0, reproducibility_latency := 0, reviewedness := 0,
    reviewedness_latency := 0, tree_score := 0, tree_score_latency := 0,
    size_score := ⟨1 / 2, 0, 0, 0⟩, size_score_latency := 0 }

/-- Concrete MODEL artifact for the C7 witness. -/
def c7A : Artifact := ⟨⟨"m", "m7", ArtifactType.MODEL⟩, ⟨"u7", none⟩⟩

/-- Concrete store for the C7 witness: one rated MODEL and one DATASET. -/
def c7S : Store :=
  ⟨[("m7",
      { artifact := c7A, rating := some c7R, dataset_id := none, dataset_name := none,
        dataset_url := none, code_id := none, code_name := none, code_url := none })],
    [("d7", ⟨⟨⟨"d", "d7", ArtifactType.DATASET⟩, ⟨"ud7", none⟩⟩⟩)], []⟩

/-- Witness for C7: the rated MODEL with `raspberry_pi = 1/2` costs
500.0 and the DATASET costs 0.0. -/
theorem c7_cost_formula_witness :
    get_artifact_cost c7S ArtifactType.MODEL "m7" = Except.ok 500 ∧
    get_artifact_cost c7S ArtifactType.DATASET "d7" = Except.ok 0 :=
  ⟨(((c7_cost_formula c7S "m7" c7A).1 c7R rfl rfl).2.1 rfl),
    (c7_cost_formula c7S "d7" ⟨⟨"d", "d7", ArtifactType.DATASET⟩, ⟨"ud7", none⟩⟩).2
      ArtifactType.DATASET (by decide) rfl⟩

/-! ### Claim C4 -/

/-- Concrete MODEL payload whose id is absent from the store, for the C4
failing input. -/
def c4P : Artifact := ⟨⟨"m", "m4", ArtifactType.MODEL⟩, ⟨"u4", none⟩⟩

/-- Upstream oracle with eleven zero sub-scores, for the C4 failing
input. -/
def c4O : UpstreamInputs :=
  ⟨none, none, [0, 0, 0, 0, 0, 0, 0, 0, 0, 0, 0], ⟨0, 0, 0, 0⟩⟩

/-- Concrete DATASET payload whose id is absent from the store, for the
C4 failing input. -/
def c4D : Artifact := ⟨⟨"d", "d4", ArtifactType.DATASET⟩, ⟨"ud4", none⟩⟩

/-- Claim C4, evaluated at its failing inputs: an update whose (kind, id)
has no existing record never signals NotFound.  A DATASET update of a
missing id succeeds and implicitly saves the payload, because the
existence check of the route calls the shadowed `get_artifact` route
coroutine, which is always truthy (see `update_artifact`); a MODEL
update performs no existence check at all and implicitly creates the
record.  The claim — NotFound and an unchanged store, for MODEL as well
as DATASET and CODE updates — matches the stated intent of the spec, and the
code diverges from it on every kind. -/
theorem c4_update_never_not_found :
    get_artifact emptyStore ArtifactType.DATASET "d4" = none ∧
    (update_artifact emptyStore ArtifactType.DATASET "d4" c4D emptyOracle).2 =
      Except.ok c4D ∧
    (update_artifact emptyStore ArtifactType.DATASET "d4" c4D emptyOracle).1 ≠
      emptyStore ∧
    get_artifact (update_artifact emptyStore ArtifactType.DATASET "d4" c4D emptyOracle).1
      ArtifactType.DATASET "d4" = some c4D ∧
    get_artifact emptyStore ArtifactType.MODEL "m4" = none ∧
    (update_artifact emptyStore ArtifactType.MODEL "m4" c4P c4O).2 = Except.ok c4P ∧
    (update_artifact emptyStore ArtifactType.MODEL "m4" c4P c4O).1 ≠ emptyStore ∧
    get_artifact (update_artifact emptyStore ArtifactType.MODEL "m4" c4P c4O).1
      ArtifactType.MODEL "m4" = some c4P :=
  ⟨rfl, rfl, by decide, rfl, rfl, rfl, by decide, rfl⟩

/-! ### Record-field lemmas for the invariant proof -/

theorem updateModelRecord_ids (r : ModelRecord) (a : Artifact) (rt : Option ModelRating)
    (dn du cn cu : Option String) :
    (updateModelRecord r a rt dn du cn cu).dataset_id = r.dataset_id ∧
    (updateModelRecord r a rt dn du cn cu).code_id = r.code_id :=
  ⟨rfl, rfl⟩

theorem newModelRecord_ids (a : Artifact) (rt : Option ModelRating)
    (dn du cn cu : Option String) :
    (newModelRecord a rt dn du cn cu).dataset_id = none ∧
    (newModelRecord a rt dn du cn cu).code_id = none :=
  ⟨rfl, rfl⟩

theorem repairDataset_code_id (i u : String) (n : Option String) (m : ModelRecord) :
    (repairDataset i u n m).code_id = m.code_id := by
  unfold repairDataset
  split <;> rfl

theorem repairCode_dataset_id (i u : String) (n : Option String) (m : ModelRecord) :
    (repairCode i u n m).dataset_id = m.dataset_id := by
  unfold repairCode
  split <;> rfl

theorem clearDataset_code_id (i : String) (m : ModelRecord) :
    (clearDataset i m).code_id = m.code_id := by
  unfold clearDataset
  split <;> rfl

theorem clearCode_dataset_id (i : String) (m : ModelRecord) :
    (clearCode i m).dataset_id = m.dataset_id := by
  unfold clearCode
  split <;> rfl

theorem link_dataset_code_dataset_id_cases (s : Store) (m : ModelRecord) (i : String)
    (h : (link_dataset_code s m).dataset_id = some i) :
    m.dataset_id = some i ∨ containsKey s.datasets i = true := by
  unfold link_dataset_code at h
  rw [(link_code_frame s (link_dataset s m)).1] at h
  rcases link_dataset_cases s m with hc | ⟨q, hq, _, heq⟩
  · rw [hc] at h
    exact Or.inl h
  · rw [heq] at h
    simp only [Option.some.injEq] at h
    exact Or.inr ((containsKey_iff _ _).mpr ⟨q, hq, h⟩)

theorem link_dataset_code_code_id_cases (s : Store) (m : ModelRecord) (i : String)
    (h : (link_dataset_code s m).code_id = some i) :
    m.code_id = some i ∨ containsKey s.codes i = true := by
  unfold link_dataset_code at h
  rcases link_code_cases s (link_dataset s m) with hc | ⟨q, hq, _, heq⟩
  · rw [hc, (link_dataset_frame s m).1] at h
    exact Or.inl h
  · rw [heq] at h
    simp only [Option.some.injEq] at h
    exact Or.inr ((containsKey_iff _ _).mpr ⟨q, hq, h⟩)

/-! ### Claim C2 -/

/-- Claim C2: the no-dangling-foreign-keys invariant — every resolved
`dataset_id` (resp. `code_id`) of a MODEL record names an existing
DATASET (resp. CODE) key — is preserved by every store operation: a put
of any kind, a delete of any kind (which clears the referencing id and
its paired url together while leaving `*Name` hints in place, as proved
for C9), and a reset. -/
theorem c2_invariant_preserved (s : Store) (op : StoreOp) (h : Invariant s) :
    Invariant (applyOp s op) := by
  cases op with
  | save a r dn du cn cu =>
    cases hty : a.metadata.type with
    | MODEL =>
      unfold Invariant
      intro p hp
      simp only [applyOp] at hp ⊢
      cases hget : dictGet a.metadata.id s.models with
      | some r0 =>
        have hm' : (save_artifact s a r dn du cn cu).models =
            dictInsert a.metadata.id
              (link_dataset_code s (updateModelRecord r0 a r dn du cn cu)) s.models := by
          simp [save_artifact, hty, hget]
        have hd' : (save_artifact s a r dn du cn cu).datasets = s.datasets := by
          simp [save_artifact, hty, hget]
        have hc' : (save_artifact s a r dn du cn cu).codes = s.codes := by
          simp [save_artifact, hty, hget]
        rw [hm'] at hp
        rw [hd', hc']
        rcases mem_dictInsert hp with hpe | hpm
        · rw [hpe]
          have hr0 := h (a.metadata.id, r0) (dictGet_mem hget)
          constructor
          · cases hdi : (link_dataset_code s (updateModelRecord r0 a r dn du cn cu)).dataset_id with
            | none => rfl
            | some i =>
              rcases link_dataset_code_dataset_id_cases _ _ _ hdi with hold | hck
              · rw [(updateModelRecord_ids r0 a r dn du cn cu).1] at hold
                have := hr0.1
                rw [hold] at this
                exact this
              · exact hck
          · cases hci : (link_dataset_code s (updateModelRecord r0 a r dn du cn cu)).code_id with
            | none => rfl
            | some i =>
              rcases link_dataset_code_code_id_cases _ _ _ hci with hold | hck
              · rw [(updateModelRecord_ids r0 a r dn du cn cu).2] at hold
                have := hr0.2
                rw [hold] at this
                exact this
              · exact hck
        · exact h p hpm
      | none =>
        have hm' : (save_artifact s a r dn du cn cu).models =
            dictInsert a.metadata.id
              (link_dataset_code s (newModelRecord a r dn du cn cu)) s.models := by
          simp [save_artifact, hty, hget]
        have hd' : (save_artifact s a r dn du cn cu).datasets = s.datasets := by
          simp [save_artifact, hty, hget]
        have hc' : (save_artifact s a r dn du cn cu).codes = s.codes := by
          simp [save_artifact, hty, hget]
        rw [hm'] at hp
        rw [hd', hc']
        rcases mem_dictInsert hp with hpe | hpm
        · rw [hpe]
          constructor
          · cases hdi : (link_dataset_code s (newModelRecord a r dn du cn cu)).dataset_id with
            | none => rfl
            | some i =>
              rcases link_dataset_code_dataset_id_cases _ _ _ hdi with hold | hck
              · rw [(newModelRecord_ids a r dn du cn cu).1] at hold
                exact absurd hold (by simp)
              · exact hck
          · cases hci : (link_dataset_code s (newModelRecord a r dn du cn cu)).code_id with
            | none => rfl
            | some i =>
              rcases link_dataset_code_code_id_cases _ _ _ hci with hold | hck
              · rw [(newModelRecord_ids a r dn du cn cu).2] at hold
                exact absurd hold (by simp)
              · exact hck
        · exact h p hpm
    | DATASET =>
      unfold Invariant
      intro p hp
      simp only [applyOp] at hp ⊢
      have hm' : (save_artifact s a r dn du cn cu).models =
          s.models.map (fun p =>
            (p.1, repairDataset a.metadata.id a.data.url (pnorm (some a.metadata.name)) p.2)) := by
        simp [save_artifact, hty]
      have hd' : (save_artifact s a r dn du cn cu).datasets =
          dictInsert a.metadata.id ⟨a⟩ s.datasets := by
        simp [save_artifact, hty]
      have hc' : (save_artifact s a r dn du cn cu).codes = s.codes := by
        simp [save_artifact, hty]
      rw [hm'] at hp
      rw [hd', hc']
      rcases List.mem_map.mp hp with ⟨q, hq, hqe⟩
      rw [← hqe]
      constructor
      · unfold repairDataset
        split
        · simp [fkOk, containsKey_dictInsert_self]
        · cases hqd : q.2.dataset_id with
          | none => rfl
          | some j =>
            have h1 := (h q hq).1
            rw [hqd] at h1
            exact containsKey_dictInsert_of j a.metadata.id ⟨a⟩ s.datasets h1
      · rw [repairDataset_code_id]
        exact (h q hq).2
    | CODE =>
      unfold Invariant
      intro p hp
      simp only [applyOp] at hp ⊢
      have hm' : (save_artifact s a r dn du cn cu).models =
          s.models.map (fun p =>
            (p.1, repairCode a.metadata.id a.data.url (pnorm (some a.metadata.name)) p.2)) := by
        simp [save_artifact, hty]
      have hc' : (save_artifact s a r dn du cn cu).codes =
          dictInsert a.metadata.id ⟨a⟩ s.codes := by
        simp [save_artifact, hty]
      have hd' : (save_artifact s a r dn du cn cu).datasets = s.datasets := by
        simp [save_artifact, hty]
      rw [hm'] at hp
      rw [hd', hc']
      rcases List.mem_map.mp hp with ⟨q, hq, hqe⟩
      rw [← hqe]
      constructor
      · rw [repairCode_dataset_id]
        exact (h q hq).1
      · unfold repairCode
        split
        · simp [fkOk, containsKey_dictInsert_self]
        · cases hqc : q.2.code_id with
          | none => rfl
          | some j =>
            have h2 := (h q hq).2
            rw [hqc] at h2
            exact containsKey_dictInsert_of j a.metadata.id ⟨a⟩ s.codes h2
  | del t i =>
    cases t with
    | MODEL =>
      unfold Invariant
      intro p hp
      simp only [applyOp] at hp ⊢
      by_cases hc : containsKey s.models i = true
      · have e1 : (delete_artifact s ArtifactType.MODEL i).2 =
            { s with models := dictErase i s.models } := by
          simp [delete_artifact, hc]
        rw [e1] at hp ⊢
        exact h p (List.mem_of_mem_filter hp)
      · have e1 : (delete_artifact s ArtifactType.MODEL i).2 = s := by
          simp [delete_artifact, hc]
        rw [e1] at hp ⊢
        exact h p hp
    | DATASET =>
      unfold Invariant
      intro p hp
      simp only [applyOp] at hp ⊢
      by_cases hc : containsKey s.datasets i = true
      · have e1 : (delete_artifact s ArtifactType.DATASET i).2 =
            { s with
              datasets := dictErase i s.datasets,
              models := s.models.map (fun p => (p.1, clearDataset i p.2)) } := by
          simp [delete_artifact, hc]
        rw [e1] at hp ⊢
        rcases List.mem_map.mp hp with ⟨q, hq, hqe⟩
        rw [← hqe]
        constructor
        · unfold clearDataset
          split
          · rfl
          · rename_i hne
            cases hqd : q.2.dataset_id with
            | none => rfl
            | some j =>
              have hji : j ≠ i := by
                intro e
                exact hne (by rw [hqd, e])
              have h1 := (h q hq).1
              rw [hqd] at h1
              exact containsKey_dictErase_of_ne j i s.datasets hji h1
        · rw [clearDataset_code_id]
          exact (h q hq).2
      · have e1 : (delete_artifact s ArtifactType.DATASET i).2 = s := by
          simp [delete_artifact, hc]
        rw [e1] at hp ⊢
        exact h p hp
    | CODE =>
      unfold Invariant
      intro p hp
      simp only [applyOp] at hp ⊢
      by_cases hc : containsKey s.codes i = true
      · have e1 : (delete_artifact s ArtifactType.CODE i).2 =
            { s with
              codes := dictErase i s.codes,
              models := s.models.map (fun p => (p.1, clearCode i p.2)) } := by
          simp [delete_artifact, hc]
        rw [e1] at hp ⊢
        rcases List.mem_map.mp hp with ⟨q, hq, hqe⟩
        rw [← hqe]
        constructor
        · rw [clearCode_dataset_id]
          exact (h q hq).1
        · unfold clearCode
          split
          · rfl
          · rename_i hne
            cases hqc : q.2.code_id with
            | none => rfl
            | some j =>
              have hji : j ≠ i := by
                intro e
                exact hne (by rw [hqc, e])
              have h2 := (h q hq).2
              rw [hqc] at h2
              exact containsKey_dictErase_of_ne j i s.codes hji h2
      · have e1 : (delete_artifact s ArtifactType.CODE i).2 = s := by
          simp [delete_artifact, hc]
        rw [e1] at hp ⊢
        exact h p hp
  | reset =>
    unfold Invariant
    intro p hp
    simp [applyOp, resetStore, emptyStore] at hp

/-- Concrete store satisfying the invariant, for the C2 witness. -/
def c2S : Store :=
  ⟨[("m2",
      { artifact := ⟨⟨"M", "m2", ArtifactType.MODEL⟩, ⟨"mu2", none⟩⟩, rating := none,
        dataset_id := some "d2", dataset_name := some "d", dataset_url := some "du2",
        code_id := none, code_name := none, code_url := none })],
    [("d2", ⟨⟨⟨"d", "d2", ArtifactType.DATASET⟩, ⟨"du2", none⟩⟩⟩)], []⟩

/-- Witness for C2: the invariant holds for the concrete store and is
preserved by deleting the referenced DATASET. -/
theorem c2_invariant_preserved_witness :
    Invariant (applyOp c2S (StoreOp.del ArtifactType.DATASET "d2")) :=
  c2_invariant_preserved c2S (StoreOp.del ArtifactType.DATASET "d2") (by decide)

/-! ### Claim C10 -/

theorem pyOrStr_isSome (new old : Option String) (h : old.isSome = true) :
    (pyOrStr new old).isSome = true := by
  cases new with
  | none => exact h
  | some x =>
    simp only [pyOrStr]
    by_cases hx : x = ""
    · rw [if_pos hx]
      exact h
    · rw [if_neg hx]
      rfl

theorem pyOrRating_isSome (new old : Option ModelRating) (h : old.isSome = true) :
    (pyOrRating new old).isSome = true := by
  cases new with
  | none => exact h
  | some x => rfl

theorem link_dataset_code_hints (s : Store) (m : ModelRecord) :
    (link_dataset_code s m).rating = m.rating ∧
    (link_dataset_code s m).dataset_name = m.dataset_name ∧
    (link_dataset_code s m).code_name = m.code_name := by
  unfold link_dataset_code
  refine ⟨?_, ?_, ?_⟩
  · rw [(link_code_frame s (link_dataset s m)).2.2.2.2.1,
      (link_dataset_frame s m).2.2.2.2.1]
  · rw [(link_code_frame s (link_dataset s m)).2.1, (link_dataset_frame s m).2.2.2.1]
  · rw [(link_code_frame s (link_dataset s m)).2.2.2.1, (link_dataset_frame s m).2.1]

/-- Concrete MODEL record with an unresolved hint and no stored
`dataset_url`, for the C10 counterexample. -/
def c10M : ModelRecord :=
  { artifact := ⟨⟨"M", "mX", ArtifactType.MODEL⟩, ⟨"muX", none⟩⟩, rating := none,
    dataset_id := none, dataset_name := some "d", dataset_url := none,
    code_id := none, code_name := none, code_url := none }

/-- Concrete store for C10: the hinted MODEL plus a DATASET whose name
matches the hint (reachable e.g. by deleting and re-registering the
dataset a MODEL was linked to). -/
def c10S : Store :=
  ⟨[("mX", c10M)], [("dX", ⟨⟨⟨"d", "dX", ArtifactType.DATASET⟩, ⟨"duX", none⟩⟩⟩)], []⟩

/-- Overwrite artifact targeting the existing MODEL id, for C10. -/
def c10A : Artifact := ⟨⟨"M", "mX", ArtifactType.MODEL⟩, ⟨"muX2", none⟩⟩

/-- Counterexample for C10: overwriting the stored MODEL through
`save_artifact` with every keyword argument `None` does NOT leave
`dataset_url` at its previous value — the linking pass run by the same
save resolves the dangling hint and sets `dataset_url` (with
`dataset_id`) from the matching DATASET. -/
theorem c10_none_kwargs_counterexample :
    (dictGet "mX" c10S.models).map ModelRecord.dataset_url = some none ∧
    (dictGet "mX" (save_artifact c10S c10A none none none none none).models).map
      ModelRecord.dataset_url = some (some "duX") := by decide

/-- Claim C10 (amended): for a `save_artifact` call on an existing MODEL
id, a `None` `rating`, `dataset_name` or `code_name` keeps the stored
value; a `None` `dataset_url` (resp. `code_url`) keeps the stored value
unless the linking pass resolves the still-absent `dataset_id` (resp.
`code_id`) against a matching stored record, in which case the url is
populated together with the id from that record; and no overwrite ever
clears a previously stored rating, hint or url back to absent. -/
theorem c10_none_kwargs_preserve (s : Store) (a : Artifact)
    (rating : Option ModelRating) (dn du cn cu : Option String) (r : ModelRecord)
    (hty : a.metadata.type = ArtifactType.MODEL)
    (hm : dictGet a.metadata.id s.models = some r) :
    ∀ m', dictGet a.metadata.id (save_artifact s a rating dn du cn cu).models = some m' →
      (rating = none → m'.rating = r.rating) ∧
      (dn = none → m'.dataset_name = r.dataset_name) ∧
      (cn = none → m'.code_name = r.code_name) ∧
      (du = none → m'.dataset_url = r.dataset_url ∨
        (r.dataset_id = none ∧ ∃ q ∈ s.datasets,
          m'.dataset_id = some q.1 ∧ m'.dataset_url = some q.2.artifact.data.url)) ∧
      (cu = none → m'.code_url = r.code_url ∨
        (r.code_id = none ∧ ∃ q ∈ s.codes,
          m'.code_id = some q.1 ∧ m'.code_url = some q.2.artifact.data.url)) ∧
      (r.rating.isSome = true → m'.rating.isSome = true) ∧
      (r.dataset_name.isSome = true → m'.dataset_name.isSome = true) ∧
      (r.dataset_url.isSome = true → m'.dataset_url.isSome = true) ∧
      (r.code_name.isSome = true → m'.code_name.isSome = true) ∧
      (r.code_url.isSome = true → m'.code_url.isSome = true) := by
  have hshape : (save_artifact s a rating dn du cn cu).models =
      dictInsert a.metadata.id
        (link_dataset_code s (updateModelRecord r a rating dn du cn cu)) s.models := by
    simp [save_artifact, hty, hm]
  intro m' hm'
  rw [hshape, dictGet_insert_self, Option.some_inj] at hm'
  subst hm'
  rcases link_dataset_code_hints s (updateModelRecord r a rating dn du cn cu) with
    ⟨hrat, hdn, hcn⟩
  refine ⟨?_, ?_, ?_, ?_, ?_, ?_, ?_, ?_, ?_, ?_⟩
  · intro he
    subst he
    rw [hrat]
    rfl
  · intro he
    subst he
    rw [hdn]
    rfl
  · intro he
    subst he
    rw [hcn]
    rfl
  · intro he
    subst he
    rcases link_dataset_cases s (updateModelRecord r a rating dn none cn cu) with
      hcase | ⟨q, hq, hnone, heq⟩
    · left
      rw [show (link_dataset_code s (updateModelRecord r a rating dn none cn cu)).dataset_url =
          (link_dataset s (updateModelRecord r a rating dn none cn cu)).dataset_url from
          (link_code_frame s _).2.2.1, hcase]
      rfl
    · right
      refine ⟨hnone, q, hq, ?_, ?_⟩
      · rw [show (link_dataset_code s (updateModelRecord r a rating dn none cn cu)).dataset_id =
            (link_dataset s (updateModelRecord r a rating dn none cn cu)).dataset_id from
            (link_code_frame s _).1, heq]
      · rw [show (link_dataset_code s (updateModelRecord r a rating dn none cn cu)).dataset_url =
            (link_dataset s (updateModelRecord r a rating dn none cn cu)).dataset_url from
            (link_code_frame s _).2.2.1, heq]
  · intro he
    subst he
    rcases link_code_cases s (link_dataset s (updateModelRecord r a rating dn du cn none)) with
      hcase | ⟨q, hq, hnone, heq⟩
    · left
      show (link_code s (link_dataset s (updateModelRecord r a rating dn du cn none))).code_url =
        r.code_url
      rw [hcase, (link_dataset_frame s _).2.2.1]
      rfl
    · right
      rw [(link_dataset_frame s _).1] at hnone
      refine ⟨hnone, q, hq, ?_, ?_⟩
      · show (link_code s (link_dataset s (updateModelRecord r a rating dn du cn none))).code_id =
          some q.1
        rw [heq]
      · show (link_code s (link_dataset s (updateModelRecord r a rating dn du cn none))).code_url =
          some q.2.artifact.data.url
        rw [heq]
  · intro hs0
    rw [hrat]
    exact pyOrRating_isSome rating r.rating hs0
  · intro hs0
    rw [hdn]
    exact pyOrStr_isSome dn r.dataset_name hs0
  · intro hs0
    rcases link_dataset_cases s (updateModelRecord r a rating dn du cn cu) with
      hcase | ⟨q, hq, hnone, heq⟩
    · rw [show (link_dataset_code s (updateModelRecord r a rating dn du cn cu)).dataset_url =
          (link_dataset s (updateModelRecord r a rating dn du cn cu)).dataset_url from
          (link_code_frame s _).2.2.1, hcase]
      exact pyOrStr_isSome du r.dataset_url hs0
    · rw [show (link_dataset_code s (updateModelRecord r a rating dn du cn cu)).dataset_url =
          (link_dataset s (updateModelRecord r a rating dn du cn cu)).dataset_url from
          (link_code_frame s _).2.2.1, heq]
      rfl
  · intro hs0
    rw [hcn]
    exact pyOrStr_isSome cn r.code_name hs0
  · intro hs0
    rcases link_code_cases s (link_dataset s (updateModelRecord r a rating dn du cn cu)) with
      hcase | ⟨q, hq, hnone, heq⟩
    · show (link_code s (link_dataset s (updateModelRecord r a rating dn du cn cu))).code_url.isSome = true
      rw [hcase, (link_dataset_frame s _).2.2.1]
      exact pyOrStr_isSome cu r.code_url hs0
    · show (link_code s (link_dataset s (updateModelRecord r a rating dn du cn cu))).code_url.isSome = true
      rw [heq]
      rfl

/-- Witness for the amended C10: in the C10 store, an all-`None`
overwrite keeps the rating and the `dataset_name` hint, and populates
`dataset_id`/`dataset_url` together from the matching DATASET. -/
theorem c10_none_kwargs_preserve_witness :
    ∃ m', dictGet "mX" (save_artifact c10S c10A none none none none none).models = some m' ∧
      m'.rating = c10M.rating ∧ m'.dataset_name = c10M.dataset_name ∧
      (m'.dataset_url = c10M.dataset_url ∨
        (c10M.dataset_id = none ∧ ∃ q ∈ c10S.datasets,
          m'.dataset_id = some q.1 ∧ m'.dataset_url = some q.2.artifact.data.url)) :=
  ⟨link_dataset_code c10S (updateModelRecord c10M c10A none none none none none),
    by decide,
    (c10_none_kwargs_preserve c10S c10A none none none none none c10M rfl (by decide)
      _ (by decide)).1 rfl,
    (c10_none_kwargs_preserve c10S c10A none none none none none c10M rfl (by decide)
      _ (by decide)).2.1 rfl,
    (c10_none_kwargs_preserve c10S c10A none none none none none c10M rfl (by decide)
      _ (by decide)).2.2.2.1 rfl⟩
